import Mathlib

/-!
Shallow embedding of the pota-notification core pipeline
(src/filter.js, src/main.js, src/voicevox.js).

JavaScript strings become `String`, nullable/optional strings become
`Option String` (with `none` standing for `null`/`undefined`), and JS
truthiness on strings is modelled explicitly (`none` and `""` are falsy).
`toLowerCase`/`toUpperCase` are modelled by per-character ASCII case
mapping, which agrees with JS on the ASCII data the filters handle.
The known-spot-id `Set` of main.js is modelled as an insertion-ordered
duplicate-free `List Nat`, matching JS `Set` iteration order.
-/

namespace PotaNotification

/-- JS truthiness for a nullable string: `null`/`undefined`/`""` are falsy. -/
def isFalsyStr : Option String → Bool
  | none => true
  | some s => s = ""

/-- Model of JS `String.prototype.toLowerCase` (ASCII scope), as a character map
over the string's character list. -/
def jsToLower (s : String) : String := String.mk (s.data.map Char.toLower)

/-- Model of JS `String.prototype.toUpperCase` (ASCII scope). -/
def jsToUpper (s : String) : String := String.mk (s.data.map Char.toUpper)

/-- Model of JS `String.prototype.trim` on a character list: drop leading and
trailing whitespace. -/
def jsTrimList (l : List Char) : List Char :=
  ((l.dropWhile Char.isWhitespace).reverse.dropWhile Char.isWhitespace).reverse

/-- Substring occurrence on character lists: does `pat` occur contiguously in `text`? -/
def listContainsSub (text pat : List Char) : Bool :=
  match text with
  | [] => pat.isEmpty
  | _ :: rest => pat.isPrefixOf text || listContainsSub rest pat

/-- Model of JS `String.prototype.includes`. -/
def strIncludes (text pat : String) : Bool :=
  listContainsSub text.toList pat.toList

/-- filter.js `caseInsensitiveEquals`: null/undefined on either side gives false,
otherwise case-insensitive equality of the two strings. -/
def caseInsensitiveEquals (a b : Option String) : Bool :=
  match a, b with
  | some a, some b => jsToLower a = jsToLower b
  | _, _ => false

/-- filter.js `caseInsensitiveContains`: null/undefined on either side gives false,
otherwise case-insensitive substring test. -/
def caseInsensitiveContains (text pattern : Option String) : Bool :=
  match text, pattern with
  | some t, some p => strIncludes (jsToLower t) (jsToLower p)
  | _, _ => false

/-- filter.js `FilterCondition`: `value` is the pattern (`""` models the JS-falsy
empty/absent value), `type` is the raw match-type string, `exclude` the exclusion
flag, and `enabled` is `Option Bool` because the code tests `enabled !== false`
(an absent `enabled` counts as enabled). -/
structure FilterCondition where
  value : String
  type : String
  exclude : Bool
  enabled : Option Bool
deriving DecidableEq

/-- The code's enabledness test `c.enabled !== false`. -/
def FilterCondition.isEnabled (c : FilterCondition) : Bool :=
  c.enabled ≠ some false

/-- filter.js `FieldFilter`: a condition list plus the raw operator string
(the code treats anything other than `"and"`, including absence, as `"or"`;
absence of the operator key is modelled by `""`). -/
structure FieldFilter where
  conditions : List FilterCondition
  operator : String
deriving DecidableEq

/-- filter.js `normalizeCallsign`: falsy input gives `""`; otherwise take the part
before the first `/` (that is `split('/')[0]`), trim it, upper-case it. -/
def normalizeCallsign (callsign : Option String) : String :=
  match callsign with
  | none => ""
  | some s =>
    if s = "" then ""
    else jsToUpper (String.mk (jsTrimList (s.data.takeWhile (fun c => c ≠ '/'))))

/-- filter.js `callsignsMatch`: falsy activator or spotter never matches;
otherwise compare the normalized callsigns for equality. -/
def callsignsMatch (activator spotter : Option String) : Bool :=
  if isFalsyStr activator || isFalsyStr spotter then false
  else normalizeCallsign activator = normalizeCallsign spotter

/-- filter.js `checkConditionMatch`: empty/absent `condition.value` never matches;
`exact` is case-insensitive equality, `contains` case-insensitive substring,
any other type never matches.  The `enabled` and `exclude` flags are NOT
consulted here (callers pre-filter conditions). -/
def checkConditionMatch (fieldValue : Option String) (condition : FilterCondition) : Bool :=
  if condition.value = "" then false
  else if condition.type = "exact" then caseInsensitiveEquals fieldValue (some condition.value)
  else if condition.type = "contains" then caseInsensitiveContains fieldValue (some condition.value)
  else false

/-- filter.js `applyFieldFilter`: no filter or no conditions passes; otherwise only
the enabled non-exclude conditions matter, an empty include set passes, and the
operator (`"and"` means all, anything else means any) combines the include set. -/
def applyFieldFilter (fieldValue : Option String) (fieldFilter : Option FieldFilter) : Bool :=
  match fieldFilter with
  | none => true
  | some ff =>
    if ff.conditions = [] then true
    else
      let includeConditions := ff.conditions.filter (fun c => !c.exclude && c.isEnabled)
      if includeConditions = [] then true
      else if ff.operator = "and" then
        includeConditions.all (fun c => checkConditionMatch fieldValue c)
      else
        includeConditions.any (fun c => checkConditionMatch fieldValue c)

/-- A spot record (main.js / the POTA API): the identity plus the fields the
filter and dispatch pipeline reads.  Nullable fields are `Option String`. -/
structure Spot where
  spotId : Nat
  activator : Option String
  spotter : Option String
  reference : Option String
  comments : Option String
  mode : Option String
  frequency : Option String
deriving DecidableEq

/-- The four tracked filter fields of filter.js `applyFilter`. -/
inductive SpotField
  | reference
  | comments
  | mode
  | frequency
deriving DecidableEq

/-- Field access `spot[field]` for the tracked fields. -/
def Spot.fieldVal (s : Spot) : SpotField → Option String
  | .reference => s.reference
  | .comments => s.comments
  | .mode => s.mode
  | .frequency => s.frequency

/-- filter.js `FilterConfig` plus the main.js dispatch settings stored in the same
config document (`notificationSoundPath`, the two caps). -/
structure FilterConfig where
  reference : Option FieldFilter
  comments : Option FieldFilter
  mode : Option FieldFilter
  frequency : Option FieldFilter
  ignoreOtherSpotters : Bool
  notificationSoundPath : Option String
  maxNotificationCount : Nat
  maxPopupCount : Nat
deriving DecidableEq

/-- Config access `filterConfig[field]` for the tracked fields. -/
def FilterConfig.fieldFilter (cfg : FilterConfig) : SpotField → Option FieldFilter
  | .reference => cfg.reference
  | .comments => cfg.comments
  | .mode => cfg.mode
  | .frequency => cfg.frequency

/-- The field iteration order of the exclude pass in filter.js `applyFilter`. -/
def filterFields : List SpotField :=
  [SpotField.reference, SpotField.comments, SpotField.mode, SpotField.frequency]

/-- One field's contribution to the exclude pass: some enabled exclude condition
matches `spot[field] || ''`. -/
def excludeMatchesField (spot : Spot) (cfg : FilterConfig) (field : SpotField) : Bool :=
  match cfg.fieldFilter field with
  | none => false
  | some ff =>
    (ff.conditions.filter (fun c => c.exclude && c.isEnabled)).any
      (fun c => checkConditionMatch (some ((spot.fieldVal field).getD "")) c)

/-- The whole exclude pass of filter.js `applyFilter`: the first matching enabled
exclude condition on any tracked field rejects. -/
def excludeRejects (spot : Spot) (cfg : FilterConfig) : Bool :=
  filterFields.any (excludeMatchesField spot cfg)

/-- filter.js `applyFilter`: the `ignoreOtherSpotters` gate first, then the
exclude pass, then cross-field AND of the per-field include verdicts. -/
def applyFilter (spot : Spot) (cfg : FilterConfig) : Bool :=
  if cfg.ignoreOtherSpotters && !callsignsMatch spot.activator spot.spotter then false
  else if excludeRejects spot cfg then false
  else
    applyFieldFilter (some (spot.reference.getD "")) cfg.reference &&
    applyFieldFilter (some (spot.comments.getD "")) cfg.comments &&
    applyFieldFilter (some (spot.mode.getD "")) cfg.mode &&
    applyFieldFilter (some (spot.frequency.getD "")) cfg.frequency

/-- The enabled/disabled switches of main.js `notificationSettings`. -/
structure NotificationSettings where
  notificationEnabled : Bool
  popupEnabled : Bool
  soundEnabled : Bool
  voicevoxEnabled : Bool
deriving DecidableEq

/-- The control-flow-relevant part of voicevox.js settings: `speakerId` (JS-falsy
`null` or `0` means "no speaker configured") and the per-read cap
`maxSpotsPerRead` (0 = unlimited).  The remaining keys (hostname, port, volume,
speed, pitch, intonation, breathing, textTemplate) only parameterize the remote
synthesis request, which is abstracted as an oracle below. -/
structure VoicevoxSettings where
  speakerId : Option Nat
  maxSpotsPerRead : Nat
deriving DecidableEq

/-- JS falsiness of a nullable number: `null`/`undefined`/`0` are falsy. -/
def isFalsyNat : Option Nat → Bool
  | none => true
  | some n => n = 0

/-- State threaded through the main.js `processSpots` loop over a batch:
the known-spot-id index (insertion-ordered, duplicate-free since ids are only
added when absent — modelling the JS `Set`) and the accepted records in batch
order (`filteredSpots`). -/
structure ProcState where
  known : List Nat
  filtered : List Spot
deriving DecidableEq

/-- One iteration of the main.js `processSpots` loop: an already-known spotId is
skipped entirely; a new one is marked known first and then, if the filter
accepts it, appended to `filteredSpots`. -/
def processSpot (cfg : FilterConfig) (st : ProcState) (spot : Spot) : ProcState :=
  if spot.spotId ∈ st.known then st
  else
    { known := st.known ++ [spot.spotId],
      filtered := if applyFilter spot cfg then st.filtered ++ [spot] else st.filtered }

/-- The whole novelty-and-filter loop of main.js `processSpots` over one batch,
starting from the session's known-id index. -/
def collectNewSpots (cfg : FilterConfig) (known : List Nat) (spots : List Spot) : ProcState :=
  spots.foldl (processSpot cfg) ⟨known, []⟩

/-- The post-batch eviction of main.js `processSpots`: when the index holds more
than 1000 ids, keep only the last 1000 in insertion order
(`Array.from(set).slice(-1000)`). -/
def evictKnown (known : List Nat) : List Nat :=
  if known.length > 1000 then known.drop (known.length - 1000) else known

/-- The alert-channel slice of main.js `processSpots`: the head of the filtered
list capped at `maxNotificationCount`, all of it when the cap is 0. -/
def notificationSpots (cfg : FilterConfig) (filtered : List Spot) : List Spot :=
  if cfg.maxNotificationCount > 0 then filtered.take cfg.maxNotificationCount else filtered

/-- The popup-channel slice of main.js `processSpots`: the head of the same
filtered list capped independently at `maxPopupCount`, all of it when 0. -/
def popupSpots (cfg : FilterConfig) (filtered : List Spot) : List Spot :=
  if cfg.maxPopupCount > 0 then filtered.take cfg.maxPopupCount else filtered

/-- main.js `handleNotificationSound` fires its single play attempt exactly when
the sound switch is on and a custom sound path is configured (JS-truthy). -/
def soundWillPlay (cfg : FilterConfig) (ns : NotificationSettings) : Bool :=
  ns.soundEnabled && !isFalsyStr cfg.notificationSoundPath

/-- Result of one remote synthesis attempt, as voicevox.js `synthesizeVoicevox`
reports it: it catches every internal error (HTTP error, timeout, unreachable
backend) and returns a success flag instead of throwing. -/
inductive SynthResult
  | success
  | failure (message : String)
deriving DecidableEq

/-- The sequential read-out loop of voicevox.js `speakMultipleSpotsWithVoicevox`:
each spot is synthesized in order; a failed synthesis is logged and skipped and
the loop continues with the next spot.  Returns the spots actually played, in
order.  `synth` is the oracle for the remote synthesis outcome. -/
def speakSpotsLoop (synth : Spot → SynthResult) : List Spot → List Spot
  | [] => []
  | s :: rest =>
    match synth s with
    | .success => s :: speakSpotsLoop synth rest
    | .failure _ => speakSpotsLoop synth rest

/-- voicevox.js `speakMultipleSpotsWithVoicevox`: nothing is read when the
feature is off, the batch is empty, or no speaker is configured; otherwise the
head of the list capped at `maxSpotsPerRead` (0 = unlimited) is read
sequentially, skipping per-item synthesis failures. -/
def speakMultipleSpotsWithVoicevox (synth : Spot → SynthResult) (spots : List Spot)
    (vs : VoicevoxSettings) (voicevoxEnabled : Bool) : List Spot :=
  if !voicevoxEnabled || spots = [] then []
  else if isFalsyNat vs.speakerId then []
  else
    let spotsToRead := if vs.maxSpotsPerRead > 0 then spots.take vs.maxSpotsPerRead else spots
    speakSpotsLoop synth spotsToRead

/-- One channel invocation made by the dispatch part of main.js `processSpots`. -/
inductive ChannelEvent
  | sound
  | alert (s : Spot)
  | popup (s : Spot)
  | speak (s : Spot)
deriving DecidableEq

/-- The dispatch part of main.js `processSpots`, as the ordered list of channel
invocations it performs on a batch's filtered list: nothing on an empty list;
otherwise the single optional sound play first, then one alert per record of
the alert slice, then one popup per record of the popup slice, then — when an
audio-capable window exists — the sequential speech read-out. -/
def dispatchEvents (cfg : FilterConfig) (ns : NotificationSettings) (vs : VoicevoxSettings)
    (synth : Spot → SynthResult) (hasAudioTarget : Bool) (filtered : List Spot) :
    List ChannelEvent :=
  if filtered = [] then []
  else
    (if soundWillPlay cfg ns then [ChannelEvent.sound] else [])
    ++ (notificationSpots cfg filtered).map ChannelEvent.alert
    ++ (popupSpots cfg filtered).map ChannelEvent.popup
    ++ (if hasAudioTarget then
          (speakMultipleSpotsWithVoicevox synth filtered vs ns.voicevoxEnabled).map
            ChannelEvent.speak
        else [])

/-- main.js `processSpots`, end to end for one batch: the novelty-and-filter
loop, the dispatch invocations, and the post-batch eviction of the known-id
index.  Returns the evicted index, the filtered list, and the channel events. -/
def processSpots (cfg : FilterConfig) (ns : NotificationSettings) (vs : VoicevoxSettings)
    (synth : Spot → SynthResult) (hasAudioTarget : Bool) (known : List Nat)
    (spots : List Spot) : List Nat × List Spot × List ChannelEvent :=
  let st := collectNewSpots cfg known spots
  (evictKnown st.known, st.filtered, dispatchEvents cfg ns vs synth hasAudioTarget st.filtered)

/-- The records handed to the alert channel, read off an event list. -/
def alertsOf (events : List ChannelEvent) : List Spot :=
  events.filterMap fun e =>
    match e with
    | .alert s => some s
    | _ => none

/-- The records handed to the popup channel, read off an event list. -/
def popupsOf (events : List ChannelEvent) : List Spot :=
  events.filterMap fun e =>
    match e with
    | .popup s => some s
    | _ => none

/-- The records actually spoken, read off an event list. -/
def spokenOf (events : List ChannelEvent) : List Spot :=
  events.filterMap fun e =>
    match e with
    | .speak s => some s
    | _ => none

/-- A condition whose type string is neither `"exact"` nor `"contains"` never
matches any field value. -/
theorem unknownTypeNoMatch (v : Option String) (c : FilterCondition)
    (h1 : c.type ≠ "exact") (h2 : c.type ≠ "contains") :
    checkConditionMatch v c = false := by
  simp [checkConditionMatch, h1, h2]

/-- If every enabled exclude condition a field filter holds for `f` has an
unknown type, that field contributes nothing to the exclude pass. -/
theorem excludeMatchesField_false_of_unknown (spot : Spot) (cfg : FilterConfig) (f : SpotField)
    (h : ∀ ff, cfg.fieldFilter f = some ff → ∀ c ∈ ff.conditions,
        c.exclude = true → c.isEnabled = true → c.type ≠ "exact" ∧ c.type ≠ "contains") :
    excludeMatchesField spot cfg f = false := by
  unfold excludeMatchesField
  cases hff : cfg.fieldFilter f with
  | none => rfl
  | some ff =>
    simp only [List.any_eq_false]
    intro c hc
    rw [List.mem_filter] at hc
    obtain ⟨hmem, hpred⟩ := hc
    rw [Bool.and_eq_true] at hpred
    obtain ⟨hex, hen⟩ := hpred
    have := h ff hff c hmem hex hen
    simp [unknownTypeNoMatch _ c this.1 this.2]

/-- C10: a condition whose type is neither `exact` nor `contains` never matches
any field value, so it never satisfies an include requirement and, even as an
enabled exclude condition, never causes the exclude pass to reject a record. -/
theorem c10_unknown_type_inert (v : Option String) (c : FilterCondition)
    (spot : Spot) (cfg : FilterConfig) :
    (c.type ≠ "exact" → c.type ≠ "contains" → checkConditionMatch v c = false) ∧
    ((∀ f : SpotField, ∀ ff : FieldFilter, cfg.fieldFilter f = some ff →
        ∀ c' ∈ ff.conditions, c'.exclude = true → c'.isEnabled = true →
          c'.type ≠ "exact" ∧ c'.type ≠ "contains") →
      excludeRejects spot cfg = false) := by
  constructor
  · exact unknownTypeNoMatch v c
  · intro h
    unfold excludeRejects
    simp only [List.any_eq_false]
    intro f _
    simp [excludeMatchesField_false_of_unknown spot cfg f (h f)]

/-- C10 witness: concrete inputs where an enabled exclude condition of type
`"regex"` matches nothing and the exclude pass accepts. -/
theorem c10_unknown_type_inert_witness :
    checkConditionMatch (some "CW") ⟨"CW", "regex", true, none⟩ = false ∧
    excludeRejects
      ⟨1, none, none, none, none, some "CW", none⟩
      ⟨none, none, some ⟨[⟨"CW", "regex", true, none⟩], "or"⟩, none,
        false, none, 0, 0⟩ = false := by
  refine ⟨(c10_unknown_type_inert (some "CW") ⟨"CW", "regex", true, none⟩
      ⟨1, none, none, none, none, some "CW", none⟩
      ⟨none, none, some ⟨[⟨"CW", "regex", true, none⟩], "or"⟩, none,
        false, none, 0, 0⟩).1 (by decide) (by decide),
    (c10_unknown_type_inert (some "CW") ⟨"CW", "regex", true, none⟩
      ⟨1, none, none, none, none, some "CW", none⟩
      ⟨none, none, some ⟨[⟨"CW", "regex", true, none⟩], "or"⟩, none,
        false, none, 0, 0⟩).2 ?_⟩
  intro f ff hff c' hc' hex hen
  cases f <;> simp_all [FilterConfig.fieldFilter]
  subst hff
  simp_all

/-- C5 counterexample: `checkConditionMatch` does NOT return false for a
disabled condition — it never consults the `enabled` flag, so a disabled
`exact "ft8"` condition still matches the field value `"FT8"`, contradicting
the claim's "returns false when the condition is disabled". -/
theorem c5_disabled_condition_counterexample :
    checkConditionMatch (some "FT8") ⟨"ft8", "exact", false, some false⟩ = true := by
  decide

/-- C5 (amended): `checkConditionMatch` returns false for every field value when
`condition.value` is empty; it ignores the `enabled` flag entirely (disabled
conditions are pre-filtered by its callers); for type `exact` it performs
case-insensitive full-string equality, so matching `"FT8"` against an `exact`
`"ft8"` condition succeeds whatever the flags, matching `""` against a
`contains "x"` condition fails, and an absent (`null`) field value never
matches any condition. -/
theorem c5_condition_matcher (v : Option String) (c : FilterCondition) (s : String)
    (e : Option Bool) (ex : Bool) :
    (c.value = "" → checkConditionMatch v c = false) ∧
    (checkConditionMatch v ⟨c.value, c.type, c.exclude, e⟩ = checkConditionMatch v c) ∧
    (checkConditionMatch none c = false) ∧
    (c.type = "exact" →
      (checkConditionMatch (some s) c = true ↔ c.value ≠ "" ∧ jsToLower s = jsToLower c.value)) ∧
    checkConditionMatch (some "FT8") ⟨"ft8", "exact", ex, e⟩ = true ∧
    checkConditionMatch (some "") ⟨"x", "contains", ex, e⟩ = false := by
  refine ⟨?_, ?_, ?_, ?_, ?_, ?_⟩
  · intro h
    simp [checkConditionMatch, h]
  · simp [checkConditionMatch]
  · by_cases hv : c.value = "" <;>
      simp [checkConditionMatch, hv, caseInsensitiveEquals, caseInsensitiveContains]
  · intro ht
    by_cases hv : c.value = "" <;>
      simp [checkConditionMatch, hv, ht, caseInsensitiveEquals]
  · simp [checkConditionMatch, caseInsensitiveEquals]
    decide
  · simp [checkConditionMatch, caseInsensitiveContains]
    decide

/-- C5 witness: the amended matcher facts evaluated at concrete inputs. -/
theorem c5_condition_matcher_witness :
    checkConditionMatch (some "CW") ⟨"", "exact", false, none⟩ = false ∧
    (checkConditionMatch (some "FT8") ⟨"ft8", "exact", false, some false⟩ = true ↔
      ("ft8" : String) ≠ "" ∧ jsToLower "FT8" = jsToLower "ft8") := by
  refine ⟨(c5_condition_matcher (some "CW") ⟨"", "exact", false, none⟩ "FT8" none false).1
      (by decide), ?_⟩
  exact (c5_condition_matcher (some "FT8") ⟨"ft8", "exact", false, some false⟩ "FT8"
      (some false) false).2.2.2.1 (by decide)

/-- C9: `applyFieldFilter` returns true when the field filter is absent, when it
has zero conditions, and whenever the enabled include set is empty — in
particular when every condition is disabled, and when all conditions are
exclude conditions (open by default). -/
theorem c9_field_filter_open (v : Option String) (ff : FieldFilter) :
    applyFieldFilter v none = true ∧
    (ff.conditions = [] → applyFieldFilter v (some ff) = true) ∧
    (ff.conditions.filter (fun c => !c.exclude && c.isEnabled) = [] →
      applyFieldFilter v (some ff) = true) ∧
    ((∀ c ∈ ff.conditions, c.enabled = some false) → applyFieldFilter v (some ff) = true) ∧
    ((∀ c ∈ ff.conditions, c.exclude = true) → applyFieldFilter v (some ff) = true) := by
  have hempty : ∀ h : ff.conditions.filter (fun c => !c.exclude && c.isEnabled) = [],
      applyFieldFilter v (some ff) = true := by
    intro h
    by_cases hc : ff.conditions = [] <;> simp [applyFieldFilter, hc, h]
  refine ⟨rfl, ?_, hempty, ?_, ?_⟩
  · intro h
    simp [applyFieldFilter, h]
  · intro h
    apply hempty
    rw [List.filter_eq_nil_iff]
    intro c hc
    simp [FilterCondition.isEnabled, h c hc]
  · intro h
    apply hempty
    rw [List.filter_eq_nil_iff]
    intro c hc
    simp [h c hc]

/-- C9 witness: a field filter whose single condition is disabled, and one whose
single condition is an exclude condition, both pass a concrete value. -/
theorem c9_field_filter_open_witness :
    applyFieldFilter (some "CW") (some ⟨[⟨"CW", "exact", false, some false⟩], "or"⟩) = true ∧
    applyFieldFilter (some "CW") (some ⟨[⟨"CW", "exact", true, none⟩], "and"⟩) = true := by
  refine ⟨(c9_field_filter_open (some "CW")
      ⟨[⟨"CW", "exact", false, some false⟩], "or"⟩).2.2.2.1 ?_,
    (c9_field_filter_open (some "CW")
      ⟨[⟨"CW", "exact", true, none⟩], "and"⟩).2.2.2.2 ?_⟩ <;> decide

/-- C1: if any enabled exclude condition on any tracked field matches that
field's value (with the code's `spot[field] || ''` defaulting), `applyFilter`
returns false — irrespective of the field's operator and of any include
conditions in the configuration. -/
theorem c1_exclude_wins (spot : Spot) (cfg : FilterConfig) (field : SpotField)
    (ff : FieldFilter) (c : FilterCondition)
    (hff : cfg.fieldFilter field = some ff) (hmem : c ∈ ff.conditions)
    (hex : c.exclude = true) (hen : c.isEnabled = true)
    (hmatch : checkConditionMatch (some ((spot.fieldVal field).getD "")) c = true) :
    applyFilter spot cfg = false := by
  have hfield : excludeMatchesField spot cfg field = true := by
    unfold excludeMatchesField
    rw [hff]
    simp only [List.any_eq_true]
    exact ⟨c, List.mem_filter.mpr ⟨hmem, by simp [hex, hen]⟩, hmatch⟩
  have hrej : excludeRejects spot cfg = true := by
    unfold excludeRejects
    rw [List.any_eq_true]
    exact ⟨field, by cases field <;> simp [filterFields], hfield⟩
  simp [applyFilter, hrej]

/-- C1 witness: a config whose `mode` field has an enabled exclude condition on
`"CW"` and an include condition `contains "CW"`; a record with mode `"CW"` is
rejected even though the include condition matches. -/
theorem c1_exclude_wins_witness :
    applyFilter ⟨1, some "JA1AAA", some "JA1BBB", some "JA-0001", some "", some "CW", some "7030"⟩
      ⟨none, none,
        some ⟨[⟨"CW", "exact", true, none⟩, ⟨"CW", "contains", false, none⟩], "or"⟩,
        none, false, none, 0, 0⟩ = false := by
  exact c1_exclude_wins
    ⟨1, some "JA1AAA", some "JA1BBB", some "JA-0001", some "", some "CW", some "7030"⟩
    ⟨none, none,
      some ⟨[⟨"CW", "exact", true, none⟩, ⟨"CW", "contains", false, none⟩], "or"⟩,
      none, false, none, 0, 0⟩
    SpotField.mode
    ⟨[⟨"CW", "exact", true, none⟩, ⟨"CW", "contains", false, none⟩], "or"⟩
    ⟨"CW", "exact", true, none⟩
    (by decide) (by decide) (by decide) (by decide) (by decide)

/-- C6 counterexample: with `ignoreOtherSpotters = true`, rejection is NOT
equivalent to the callsigns differing — a record whose activator and spotter
normalize to the same callsign (`JA1AAA`) is still rejected because an exclude
condition on `mode` matches, so the claimed "if and only if" fails. -/
theorem c6_reporter_gate_counterexample :
    (⟨none, none, some ⟨[⟨"CW", "exact", true, none⟩], "or"⟩, none,
        true, none, 0, 0⟩ : FilterConfig).ignoreOtherSpotters = true ∧
    normalizeCallsign (some "JA1AAA/P") = normalizeCallsign (some "ja1aaa") ∧
    applyFilter ⟨1, some "JA1AAA/P", some "ja1aaa", none, none, some "CW", none⟩
      ⟨none, none, some ⟨[⟨"CW", "exact", true, none⟩], "or"⟩, none,
        true, none, 0, 0⟩ = false := by
  refine ⟨rfl, by decide, by decide⟩

/-- C6 (amended): when `ignoreOtherSpotters` is true, `applyFilter` rejects
every record whose spotter and activator are NOT equal under callsign
equivalence — normalize each by taking the substring before the first `/`,
trimming and upper-casing, then compare for exact string equality, where an
absent or empty callsign on either side never counts as equal; records whose
callsigns are equivalent proceed to the exclude/include passes and may still
be rejected there. -/
theorem c6_reporter_gate (spot : Spot) (cfg : FilterConfig) (a s : Option String) :
    (cfg.ignoreOtherSpotters = true →
      callsignsMatch spot.activator spot.spotter = false →
      applyFilter spot cfg = false) ∧
    (callsignsMatch a s = true ↔
      isFalsyStr a = false ∧ isFalsyStr s = false ∧
        normalizeCallsign a = normalizeCallsign s) := by
  constructor
  · intro hig hnm
    simp [applyFilter, hig, hnm]
  · unfold callsignsMatch
    by_cases ha : isFalsyStr a <;> by_cases hs : isFalsyStr s <;> simp [ha, hs]

/-- C6 witness: a record whose spotter differs from its activator is rejected
under `ignoreOtherSpotters`, and the callsign-equivalence characterization at
concrete callsigns. -/
theorem c6_reporter_gate_witness :
    applyFilter ⟨2, some "JA1AAA", some "JA2BBB", none, none, none, none⟩
      ⟨none, none, none, none, true, none, 0, 0⟩ = false ∧
    (callsignsMatch (some "JK1AZT/8") (some "jk1azt") = true ↔
      isFalsyStr (some "JK1AZT/8") = false ∧ isFalsyStr (some "jk1azt") = false ∧
        normalizeCallsign (some "JK1AZT/8") = normalizeCallsign (some "jk1azt")) := by
  refine ⟨(c6_reporter_gate ⟨2, some "JA1AAA", some "JA2BBB", none, none, none, none⟩
      ⟨none, none, none, none, true, none, 0, 0⟩
      (some "JK1AZT/8") (some "jk1azt")).1 rfl (by decide),
    (c6_reporter_gate ⟨2, some "JA1AAA", some "JA2BBB", none, none, none, none⟩
      ⟨none, none, none, none, true, none, 0, 0⟩
      (some "JK1AZT/8") (some "jk1azt")).2⟩

/-- Invariant of the `processSpots` loop: ids once known stay known, and no
record whose id was in `K` at the start of the fold ever enters the filtered
list. -/
theorem foldl_processSpot_invariant (cfg : FilterConfig) (spots : List Spot)
    (st : ProcState) (K : List Nat)
    (hK : ∀ k ∈ K, k ∈ st.known) (hf : ∀ s ∈ st.filtered, s.spotId ∉ K) :
    (∀ k ∈ K, k ∈ (spots.foldl (processSpot cfg) st).known) ∧
    (∀ s ∈ (spots.foldl (processSpot cfg) st).filtered, s.spotId ∉ K) := by
  induction spots generalizing st with
  | nil => exact ⟨hK, hf⟩
  | cons spot rest ih =>
    rw [List.foldl_cons]
    apply ih
    · intro k hk
      unfold processSpot
      by_cases hmem : spot.spotId ∈ st.known <;> simp [hmem, hK k hk]
    · intro s hs
      unfold processSpot at hs
      by_cases hmem : spot.spotId ∈ st.known
      · simp only [hmem, if_pos] at hs
        exact hf s hs
      · simp only [hmem, if_neg, not_false_eq_true] at hs
        by_cases hacc : applyFilter spot cfg
        · simp [hacc, List.mem_append] at hs
          rcases hs with hs | hs
          · exact hf s hs
          · subst hs
            intro hK'
            exact hmem (hK _ hK')
        · simp [hacc] at hs
          exact hf s hs

/-- C2: one loop step of `processSpots` skips an already-known identity entirely
(the state is unchanged — no re-evaluation, no re-queue); a new identity is
appended to the index exactly once, whatever the filter outcome, and the index
stays duplicate-free; and at batch level no record whose identity was already
known at batch start ever reaches the filtered (dispatched) list. -/
theorem c2_novelty_invariant (cfg : FilterConfig) (st : ProcState) (spot : Spot)
    (known : List Nat) (spots : List Spot) :
    (spot.spotId ∈ st.known → processSpot cfg st spot = st) ∧
    (spot.spotId ∉ st.known →
      (processSpot cfg st spot).known = st.known ++ [spot.spotId]) ∧
    (spot.spotId ∉ st.known → st.known.Nodup → (processSpot cfg st spot).known.Nodup) ∧
    (spot.spotId ∈ known →
      ∀ s ∈ (collectNewSpots cfg known spots).filtered, s.spotId ≠ spot.spotId) := by
  refine ⟨?_, ?_, ?_, ?_⟩
  · intro h
    simp [processSpot, h]
  · intro h
    simp [processSpot, h]
  · intro h hnd
    simp [processSpot, h, hnd, List.nodup_append]
  · intro h s hs
    have hinv := (foldl_processSpot_invariant cfg spots ⟨known, []⟩ known
      (fun k hk => hk) (by simp)).2 s hs
    intro heq
    rw [heq] at hinv
    exact hinv h

/-- C2 witness: a batch containing a known id (5) and a fresh id (7); the known
one is skipped, the fresh one is indexed, and the known id never reaches the
filtered list. -/
theorem c2_novelty_invariant_witness :
    (processSpot ⟨none, none, none, none, false, none, 0, 0⟩
        ⟨[5], []⟩ ⟨5, none, none, none, none, none, none⟩ = ⟨[5], []⟩) ∧
    ((processSpot ⟨none, none, none, none, false, none, 0, 0⟩
        ⟨[5], []⟩ ⟨7, none, none, none, none, none, none⟩).known = [5, 7]) ∧
    (∀ s ∈ (collectNewSpots ⟨none, none, none, none, false, none, 0, 0⟩ [5]
        [⟨5, none, none, none, none, none, none⟩,
         ⟨7, none, none, none, none, none, none⟩]).filtered,
      s.spotId ≠ (5 : Nat)) := by
  refine ⟨(c2_novelty_invariant ⟨none, none, none, none, false, none, 0, 0⟩
      ⟨[5], []⟩ ⟨5, none, none, none, none, none, none⟩ [5] []).1 (by decide),
    (c2_novelty_invariant ⟨none, none, none, none, false, none, 0, 0⟩
      ⟨[5], []⟩ ⟨7, none, none, none, none, none, none⟩ [5] []).2.1 (by decide),
    (c2_novelty_invariant ⟨none, none, none, none, false, none, 0, 0⟩
      ⟨[5], []⟩ ⟨5, none, none, none, none, none, none⟩ [5]
      [⟨5, none, none, none, none, none, none⟩,
       ⟨7, none, none, none, none, none, none⟩]).2.2.2 (by decide)⟩

/-- When a batch's identities are duplicate-free and all new, the loop appends
exactly the batch's identities, in batch order, to the index. -/
theorem foldl_processSpot_known (cfg : FilterConfig) (spots : List Spot) (st : ProcState)
    (hnd : (spots.map Spot.spotId).Nodup) (hd : ∀ s ∈ spots, s.spotId ∉ st.known) :
    (spots.foldl (processSpot cfg) st).known = st.known ++ spots.map Spot.spotId := by
  induction spots generalizing st with
  | nil => simp
  | cons spot rest ih =>
    rw [List.foldl_cons]
    have hnew : spot.spotId ∉ st.known := hd spot (by simp)
    have hstep : (processSpot cfg st spot).known = st.known ++ [spot.spotId] := by
      simp [processSpot, hnew]
    rw [List.map_cons, List.nodup_cons] at hnd
    have ih' := ih (processSpot cfg st spot) hnd.2 ?_
    · rw [ih', hstep]
      simp
    · intro s hs
      rw [hstep]
      simp only [List.mem_append, List.mem_singleton]
      rintro (h | h)
      · exact hd s (by simp [hs]) h
      · exact hnd.1 (h ▸ List.mem_map_of_mem Spot.spotId hs)

/-- C3: feeding a batch of 1001 distinct identities through `processSpots`
starting from an empty index leaves exactly the last 1000 inserted identities,
with the very first one evicted; and in general the post-batch eviction keeps
exactly the suffix of the 1000 most-recently-inserted identities whenever the
index exceeds 1000 entries, and leaves the index untouched otherwise. -/
theorem c3_fifo_eviction (cfg : FilterConfig) (ns : NotificationSettings)
    (vs : VoicevoxSettings) (synth : Spot → SynthResult) (t : Bool)
    (spots : List Spot) (known : List Nat)
    (hnd : (spots.map Spot.spotId).Nodup) (hlen : spots.length = 1001) :
    (processSpots cfg ns vs synth t [] spots).1 = (spots.map Spot.spotId).drop 1 ∧
    (processSpots cfg ns vs synth t [] spots).1.length = 1000 ∧
    (∀ a, spots.head? = some a → a.spotId ∉ (processSpots cfg ns vs synth t [] spots).1) ∧
    (1000 < known.length →
      evictKnown known = known.drop (known.length - 1000) ∧
      (evictKnown known).length = 1000 ∧
      List.IsSuffix (evictKnown known) known) ∧
    (¬1000 < known.length → evictKnown known = known) := by
  have hk : (collectNewSpots cfg [] spots).known = spots.map Spot.spotId := by
    have := foldl_processSpot_known cfg spots ⟨[], []⟩ hnd (by simp)
    simpa [collectNewSpots] using this
  have hmaplen : (spots.map Spot.spotId).length = 1001 := by simp [hlen]
  have hfirst : (processSpots cfg ns vs synth t [] spots).1 =
      (spots.map Spot.spotId).drop 1 := by
    simp only [processSpots, hk, evictKnown, hmaplen]
    norm_num
  refine ⟨hfirst, ?_, ?_, ?_, ?_⟩
  · rw [hfirst]
    simp [hmaplen]
  · intro a ha
    rw [hfirst]
    cases spots with
    | nil => simp at ha
    | cons b rest =>
      simp only [List.head?_cons, Option.some.injEq] at ha
      subst ha
      rw [List.map_cons, List.nodup_cons] at hnd
      simpa using hnd.1
  · intro hgt
    refine ⟨by simp [evictKnown, hgt], ?_, ?_⟩
    · simp [evictKnown, hgt]
      omega
    · simp only [evictKnown, hgt, if_pos]
      exact List.drop_suffix _ _
  · intro hle
    simp [evictKnown, hle]

/-- C3 witness: 1001 spots with identities 0..1000 fed from an empty index
leave an index of exactly 1000 identities, namely 1..1000. -/
theorem c3_fifo_eviction_witness :
    (processSpots ⟨none, none, none, none, false, none, 0, 0⟩ ⟨false, false, false, false⟩
        ⟨none, 0⟩ (fun _ => SynthResult.success) false []
        ((List.range 1001).map fun n => ⟨n, none, none, none, none, none, none⟩)).1.length
      = 1000 ∧
    (processSpots ⟨none, none, none, none, false, none, 0, 0⟩ ⟨false, false, false, false⟩
        ⟨none, 0⟩ (fun _ => SynthResult.success) false []
        ((List.range 1001).map fun n => ⟨n, none, none, none, none, none, none⟩)).1
      = (((List.range 1001).map fun n =>
          (⟨n, none, none, none, none, none, none⟩ : Spot)).map Spot.spotId).drop 1 := by
  have h := c3_fifo_eviction ⟨none, none, none, none, false, none, 0, 0⟩
    ⟨false, false, false, false⟩ ⟨none, 0⟩ (fun _ => SynthResult.success) false
    ((List.range 1001).map fun n => ⟨n, none, none, none, none, none, none⟩) []
    (by simp [List.map_map, Function.comp_def, List.nodup_range]) (by simp)
  exact ⟨h.2.1, h.1⟩

/-- The sequential read-out loop distributes over list concatenation. -/
theorem speakSpotsLoop_append (synth : Spot → SynthResult) (l₁ l₂ : List Spot) :
    speakSpotsLoop synth (l₁ ++ l₂) = speakSpotsLoop synth l₁ ++ speakSpotsLoop synth l₂ := by
  induction l₁ with
  | nil => rfl
  | cons s rest ih =>
    simp only [List.cons_append, speakSpotsLoop]
    cases synth s <;> simp [ih]

/-- Every spot the read-out loop plays was synthesized successfully and came
from the input queue. -/
theorem mem_speakSpotsLoop (synth : Spot → SynthResult) (l : List Spot) :
    ∀ s ∈ speakSpotsLoop synth l, synth s = .success ∧ s ∈ l := by
  induction l with
  | nil => simp [speakSpotsLoop]
  | cons a rest ih =>
    intro s hs
    simp only [speakSpotsLoop] at hs
    cases ha : synth a with
    | success =>
      rw [ha] at hs
      rcases List.mem_cons.mp hs with h | h
      · subst h
        exact ⟨ha, by simp⟩
      · exact ⟨(ih s h).1, by simp [(ih s h).2]⟩
    | failure m =>
      rw [ha] at hs
      exact ⟨(ih s hs).1, by simp [(ih s hs).2]⟩

/-- Filtering-and-mapping with a constantly-`none` function erases the list. -/
theorem filterMap_const_none {α β : Type} (l : List α) :
    l.filterMap (fun _ => (none : Option β)) = [] := by
  induction l with
  | nil => rfl
  | cons a rest ih => simp [List.filterMap_cons, ih]

/-- The alert channel receives exactly the alert slice, whatever the speech
oracle, the popup cap or the audio-target state do. -/
theorem alertsOf_dispatchEvents (cfg : FilterConfig) (ns : NotificationSettings)
    (vs : VoicevoxSettings) (synth : Spot → SynthResult) (t : Bool) (filtered : List Spot) :
    alertsOf (dispatchEvents cfg ns vs synth t filtered) =
      if filtered = [] then [] else notificationSpots cfg filtered := by
  by_cases hf : filtered = []
  · simp [dispatchEvents, alertsOf, hf]
  · by_cases hsw : soundWillPlay cfg ns = true <;> by_cases ht : t = true <;>
      simp [dispatchEvents, hf, hsw, ht, alertsOf, List.filterMap_append,
        List.filterMap_map, Function.comp_def, List.filterMap_some, filterMap_const_none]

/-- The popup channel receives exactly the popup slice, independently. -/
theorem popupsOf_dispatchEvents (cfg : FilterConfig) (ns : NotificationSettings)
    (vs : VoicevoxSettings) (synth : Spot → SynthResult) (t : Bool) (filtered : List Spot) :
    popupsOf (dispatchEvents cfg ns vs synth t filtered) =
      if filtered = [] then [] else popupSpots cfg filtered := by
  by_cases hf : filtered = []
  · simp [dispatchEvents, popupsOf, hf]
  · by_cases hsw : soundWillPlay cfg ns = true <;> by_cases ht : t = true <;>
      simp [dispatchEvents, hf, hsw, ht, popupsOf, List.filterMap_append,
        List.filterMap_map, Function.comp_def, List.filterMap_some, filterMap_const_none]

/-- The number of sound plays a batch triggers: one exactly when the filtered
list is non-empty, the sound switch is on and a custom sound is configured. -/
theorem count_sound_dispatchEvents (cfg : FilterConfig) (ns : NotificationSettings)
    (vs : VoicevoxSettings) (synth : Spot → SynthResult) (t : Bool) (filtered : List Spot) :
    (dispatchEvents cfg ns vs synth t filtered).count ChannelEvent.sound =
      if filtered ≠ [] ∧ soundWillPlay cfg ns = true then 1 else 0 := by
  have halert : ∀ l : List Spot, (l.map ChannelEvent.alert).count ChannelEvent.sound = 0 :=
    fun l => List.count_eq_zero.mpr (by simp)
  have hpopup : ∀ l : List Spot, (l.map ChannelEvent.popup).count ChannelEvent.sound = 0 :=
    fun l => List.count_eq_zero.mpr (by simp)
  have hspeak : ∀ l : List Spot, (l.map ChannelEvent.speak).count ChannelEvent.sound = 0 :=
    fun l => List.count_eq_zero.mpr (by simp)
  by_cases hf : filtered = []
  · simp [dispatchEvents, hf]
  · by_cases hs : soundWillPlay cfg ns
    · simp [dispatchEvents, hf, hs, List.count_append, halert, hpopup]
      split <;> simp [hspeak, List.count_cons]
    · simp [dispatchEvents, hf, hs, List.count_append, halert, hpopup]
      split <;> simp [hspeak]

/-- C4: on a non-empty filtered list the alert channel receives exactly the
first `maxNotificationCount` entries (all of them when the cap is 0) and the
popup channel independently receives exactly the first `maxPopupCount` entries
of the same ordered list (all when 0); both slices are head-prefixes of the
filtered list, and with caps 1 and 3 on 5 filtered records exactly 1 alert and
3 popups are handed out. -/
theorem c4_independent_caps (cfg : FilterConfig) (ns : NotificationSettings)
    (vs : VoicevoxSettings) (synth : Spot → SynthResult) (t : Bool)
    (filtered : List Spot) (h : filtered ≠ []) :
    alertsOf (dispatchEvents cfg ns vs synth t filtered) =
      (if cfg.maxNotificationCount = 0 then filtered
       else filtered.take cfg.maxNotificationCount) ∧
    popupsOf (dispatchEvents cfg ns vs synth t filtered) =
      (if cfg.maxPopupCount = 0 then filtered else filtered.take cfg.maxPopupCount) ∧
    List.IsPrefix (alertsOf (dispatchEvents cfg ns vs synth t filtered)) filtered ∧
    List.IsPrefix (popupsOf (dispatchEvents cfg ns vs synth t filtered)) filtered ∧
    (cfg.maxNotificationCount = 1 → cfg.maxPopupCount = 3 → filtered.length = 5 →
      (alertsOf (dispatchEvents cfg ns vs synth t filtered)).length = 1 ∧
      (popupsOf (dispatchEvents cfg ns vs synth t filtered)).length = 3) := by
  have ha := alertsOf_dispatchEvents cfg ns vs synth t filtered
  have hp := popupsOf_dispatchEvents cfg ns vs synth t filtered
  rw [if_neg h] at ha hp
  have ha' : alertsOf (dispatchEvents cfg ns vs synth t filtered) =
      (if cfg.maxNotificationCount = 0 then filtered
       else filtered.take cfg.maxNotificationCount) := by
    rw [ha]
    by_cases hc : cfg.maxNotificationCount = 0 <;>
      simp [notificationSpots, hc, Nat.pos_of_ne_zero]
  have hp' : popupsOf (dispatchEvents cfg ns vs synth t filtered) =
      (if cfg.maxPopupCount = 0 then filtered else filtered.take cfg.maxPopupCount) := by
    rw [hp]
    by_cases hc : cfg.maxPopupCount = 0 <;>
      simp [popupSpots, hc, Nat.pos_of_ne_zero]
  refine ⟨ha', hp', ?_, ?_, ?_⟩
  · rw [ha']
    split
    · exact List.prefix_refl filtered
    · exact List.take_prefix _ filtered
  · rw [hp']
    split
    · exact List.prefix_refl filtered
    · exact List.take_prefix _ filtered
  · intro h1 h3 h5
    rw [ha', hp', h1, h3]
    simp [List.length_take, h5]

/-- C4 witness: caps 1 and 3 on a concrete 5-record filtered list yield 1 alert
and 3 popups. -/
theorem c4_independent_caps_witness :
    (alertsOf (dispatchEvents ⟨none, none, none, none, false, none, 1, 3⟩
      ⟨true, true, false, false⟩ ⟨none, 0⟩ (fun _ => SynthResult.success) false
      [⟨1, none, none, none, none, none, none⟩, ⟨2, none, none, none, none, none, none⟩,
       ⟨3, none, none, none, none, none, none⟩, ⟨4, none, none, none, none, none, none⟩,
       ⟨5, none, none, none, none, none, none⟩])).length = 1 ∧
    (popupsOf (dispatchEvents ⟨none, none, none, none, false, none, 1, 3⟩
      ⟨true, true, false, false⟩ ⟨none, 0⟩ (fun _ => SynthResult.success) false
      [⟨1, none, none, none, none, none, none⟩, ⟨2, none, none, none, none, none, none⟩,
       ⟨3, none, none, none, none, none, none⟩, ⟨4, none, none, none, none, none, none⟩,
       ⟨5, none, none, none, none, none, none⟩])).length = 3 :=
  (c4_independent_caps ⟨none, none, none, none, false, none, 1, 3⟩
    ⟨true, true, false, false⟩ ⟨none, 0⟩ (fun _ => SynthResult.success) false
    [⟨1, none, none, none, none, none, none⟩, ⟨2, none, none, none, none, none, none⟩,
     ⟨3, none, none, none, none, none, none⟩, ⟨4, none, none, none, none, none, none⟩,
     ⟨5, none, none, none, none, none, none⟩] (by decide)).2.2.2.2 rfl rfl (by decide)

/-- C8: an empty filtered list triggers no channel invocation at all; on a
non-empty list with the sound switch on and a custom sound configured, exactly
one sound play happens for the whole batch, and it precedes every alert and
popup invocation (it is the very first channel event). -/
theorem c8_sound_once (cfg : FilterConfig) (ns : NotificationSettings)
    (vs : VoicevoxSettings) (synth : Spot → SynthResult) (t : Bool)
    (filtered : List Spot) (hne : filtered ≠ [])
    (hs : ns.soundEnabled = true) (hc : isFalsyStr cfg.notificationSoundPath = false) :
    dispatchEvents cfg ns vs synth t [] = [] ∧
    (dispatchEvents cfg ns vs synth t filtered).count ChannelEvent.sound = 1 ∧
    (dispatchEvents cfg ns vs synth t filtered).head? = some ChannelEvent.sound := by
  refine ⟨by simp [dispatchEvents], ?_, ?_⟩
  · rw [count_sound_dispatchEvents]
    simp [hne, soundWillPlay, hs, hc]
  · simp [dispatchEvents, hne, soundWillPlay, hs, hc]

/-- C8 witness: one concrete spot, sound on, custom sound configured — one
sound event, first in the batch's event list. -/
theorem c8_sound_once_witness :
    (dispatchEvents ⟨none, none, none, none, false, some "ding.wav", 0, 0⟩
      ⟨true, true, true, false⟩ ⟨none, 0⟩ (fun _ => SynthResult.success) false
      [⟨1, none, none, none, none, none, none⟩]).count ChannelEvent.sound = 1 ∧
    (dispatchEvents ⟨none, none, none, none, false, some "ding.wav", 0, 0⟩
      ⟨true, true, true, false⟩ ⟨none, 0⟩ (fun _ => SynthResult.success) false
      [⟨1, none, none, none, none, none, none⟩]).head? = some ChannelEvent.sound :=
  (c8_sound_once ⟨none, none, none, none, false, some "ding.wav", 0, 0⟩
    ⟨true, true, true, false⟩ ⟨none, 0⟩ (fun _ => SynthResult.success) false
    [⟨1, none, none, none, none, none, none⟩] (by decide) rfl (by decide)).2

/-- C7: a record whose synthesis fails (voicevox.js reports remote errors and
timeouts as a failed result rather than throwing) is skipped while the rest of
the speech queue is still processed in order; everything actually spoken was
synthesized successfully and came from the queue; and the alert, popup and
sound channels are unaffected by the speech oracle's outcomes. -/
theorem c7_speech_failure_skipped (synth synth2 : Spot → SynthResult)
    (xs ys l : List Spot) (bad : Spot) (msg : String)
    (cfg : FilterConfig) (ns : NotificationSettings) (vs : VoicevoxSettings)
    (t : Bool) (filtered : List Spot)
    (hbad : synth bad = SynthResult.failure msg) :
    speakSpotsLoop synth (xs ++ bad :: ys) =
      speakSpotsLoop synth xs ++ speakSpotsLoop synth ys ∧
    (∀ s ∈ speakSpotsLoop synth l, synth s = SynthResult.success ∧ s ∈ l) ∧
    alertsOf (dispatchEvents cfg ns vs synth t filtered) =
      alertsOf (dispatchEvents cfg ns vs synth2 t filtered) ∧
    popupsOf (dispatchEvents cfg ns vs synth t filtered) =
      popupsOf (dispatchEvents cfg ns vs synth2 t filtered) ∧
    (dispatchEvents cfg ns vs synth t filtered).count ChannelEvent.sound =
      (dispatchEvents cfg ns vs synth2 t filtered).count ChannelEvent.sound := by
  refine ⟨?_, mem_speakSpotsLoop synth l, ?_, ?_, ?_⟩
  · rw [speakSpotsLoop_append]
    simp [speakSpotsLoop, hbad]
  · rw [alertsOf_dispatchEvents, alertsOf_dispatchEvents]
  · rw [popupsOf_dispatchEvents, popupsOf_dispatchEvents]
  · rw [count_sound_dispatchEvents, count_sound_dispatchEvents]

/-- C7 witness: a three-record queue whose middle record times out — the third
record is still spoken, and the failing record is skipped. -/
theorem c7_speech_failure_skipped_witness :
    speakSpotsLoop
        (fun s => if s.spotId = 2 then SynthResult.failure "Request timeout"
                  else SynthResult.success)
        ([⟨1, none, none, none, none, none, none⟩] ++
          ⟨2, none, none, none, none, none, none⟩ ::
            [⟨3, none, none, none, none, none, none⟩]) =
      speakSpotsLoop
        (fun s => if s.spotId = 2 then SynthResult.failure "Request timeout"
                  else SynthResult.success)
        [⟨1, none, none, none, none, none, none⟩] ++
      speakSpotsLoop
        (fun s => if s.spotId = 2 then SynthResult.failure "Request timeout"
                  else SynthResult.success)
        [⟨3, none, none, none, none, none, none⟩] :=
  (c7_speech_failure_skipped
    (fun s => if s.spotId = 2 then SynthResult.failure "Request timeout"
              else SynthResult.success)
    (fun _ => SynthResult.success)
    [⟨1, none, none, none, none, none, none⟩]
    [⟨3, none, none, none, none, none, none⟩] []
    ⟨2, none, none, none, none, none, none⟩ "Request timeout"
    ⟨none, none, none, none, false, none, 0, 0⟩ ⟨false, false, false, false⟩ ⟨none, 0⟩
    false [] (by decide)).1

end PotaNotification
